import Mathlib

/-!
Verification of the configuration-resolution subsystem of wastebin
(`src/env.rs`).  Each resolver reads one optional external string input
(an environment variable) and produces a typed setting or a typed error.

Shallow embedding: `std::env::var` returns `Result<String, VarError>`,
modelled as `Except VarError String`; each resolver becomes a pure Lean
function of that value (plus an explicit parameter for the one external
effect it performs: the hostname lookup of `base_url`, the random key
generation of `signing_key`).  The integer parsers mirror Rust's
`FromStr` for the unsigned machine integers (`usize`/`u64` on a 64-bit
platform), including the error kinds of `ParseIntError`.
-/

deriving instance DecidableEq for Except

namespace Wastebin

/-- `std::env::VarError`: the two failure modes of an environment read. -/
inductive VarError where
  | notPresent
  | notUnicode
deriving DecidableEq, Repr

/-- The value of one environment variable, as `std::env::var` reports it. -/
abbrev EnvVar := Except VarError String

def VAR_ADDRESS_PORT : String := "WASTEBIN_ADDRESS_PORT"
def VAR_BASE_URL : String := "WASTEBIN_BASE_URL"
def VAR_CACHE_SIZE : String := "WASTEBIN_CACHE_SIZE"
def VAR_DATABASE_PATH : String := "WASTEBIN_DATABASE_PATH"
def VAR_HTTP_TIMEOUT : String := "WASTEBIN_HTTP_TIMEOUT"
def VAR_MAX_BODY_SIZE : String := "WASTEBIN_MAX_BODY_SIZE"
def VAR_PASTE_EXPIRATIONS : String := "WASTEBIN_PASTE_EXPIRATIONS"
def VAR_SIGNING_KEY : String := "WASTEBIN_SIGNING_KEY"
def VAR_THEME : String := "WASTEBIN_THEME"
def VAR_PASSWORD_SALT : String := "WASTEBIN_PASSWORD_SALT"

/-- The error kinds of Rust's `std::num::ParseIntError` that unsigned
integer parsing can produce (`NegOverflow` is unreachable for unsigned
targets; `Zero` arises only from the `NonZero` wrappers). -/
inductive IntErrorKind where
  | empty
  | invalidDigit
  | posOverflow
  | zero
deriving DecidableEq, Repr

/-- `usize::MAX + 1` on the 64-bit platforms the service targets. -/
def u64Limit : Nat := 18446744073709551616

/-- Digit loop of Rust's `from_str_radix` (radix 10, unsigned target):
per character, a non-digit is `InvalidDigit`; a carry past the target
width is `PosOverflow`. -/
def parseU64Digits : List Char → Nat → Except IntErrorKind Nat
  | [], acc => .ok acc
  | c :: cs, acc =>
    if c.isDigit then
      let acc' := acc * 10 + (c.toNat - 48)
      if acc' < u64Limit then parseU64Digits cs acc' else .error .posOverflow
    else .error .invalidDigit

/-- Rust's `u64::from_str` / `usize::from_str`: empty input is `Empty`,
one optional leading `+` (a bare `+` is `InvalidDigit`), then decimal
digits checked against the target width. -/
def parseU64Chars (cs : List Char) : Except IntErrorKind Nat :=
  match cs with
  | [] => .error .empty
  | c :: rest =>
    if c = '+' then
      match rest with
      | [] => .error .invalidDigit
      | _ => parseU64Digits rest 0
    else
      parseU64Digits cs 0

def parseU64 (s : String) : Except IntErrorKind Nat :=
  parseU64Chars s.data

/-- Rust's `NonZeroUsize::from_str`: parse as `usize`, then reject zero
with error kind `Zero`. -/
def parseNonZeroUsize (s : String) : Except IntErrorKind Nat :=
  match parseU64 s with
  | .error e => .error e
  | .ok n => if n = 0 then .error .zero else .ok n

/-- `crate::highlight::Theme`: the closed set of theme variants matched
in `env::theme` (`src/env.rs:48-62`). -/
inductive Theme where
  | Ayu
  | Base16Ocean
  | Coldark
  | Gruvbox
  | Monokai
  | Onehalf
  | Solarized
deriving DecidableEq, Repr

/-- `crate::db::Open`: the storage location selected by
`env::database_method` — in-memory or file-backed at a path. -/
inductive Open where
  | Path (p : String)
  | Memory
deriving DecidableEq, Repr

/-- `std::time::Duration` (seconds and nanoseconds). -/
structure Duration where
  secs : Nat
  nanos : Nat
deriving DecidableEq, Repr

def DEFAULT_HTTP_TIMEOUT : Duration := ⟨5, 0⟩

/-- Modelled from the spec: the error type of the private
`crate::expiration` mini-grammar (the module itself is not under `src/`).
§7 lists its failure modes: a malformed grammar token (identifying the
offending token) and multiple default markers. -/
inductive ExpirationError where
  | multipleDefaults
  | parseToken (tok : String)
deriving DecidableEq, Repr

/-- `env::Error` (`src/env.rs:22-42`), one variant per resolver-specific
failure mode, carrying the payload the Rust variant carries. -/
inductive Error where
  | CacheSize (e : IntErrorKind)
  | DatabasePath
  | MaxBodySize (e : IntErrorKind)
  | AddressPort
  | BaseUrl (msg : String)
  | SigningKey (msg : String)
  | HttpTimeout (e : IntErrorKind)
  | ParsePasteExpiration (e : ExpirationError)
  | UnknownTheme (s : String)
deriving DecidableEq, Repr

/-- `env::title` (`src/env.rs:44-46`): the page title, defaulting to
`"wastebin"` whenever the read fails. -/
def title (v : EnvVar) : String :=
  match v with
  | .error _ => "wastebin"
  | .ok s => s

/-- `env::theme` (`src/env.rs:48-62`): exact, case-sensitive match of the
input against the closed table of theme names; absent (or non-Unicode)
input yields `Ayu`; any other present string is `UnknownTheme` carrying
the string verbatim. -/
def theme (v : EnvVar) : Except Error Theme :=
  match v with
  | .error _ => .ok Theme.Ayu
  | .ok var =>
    match var with
    | "ayu" => .ok Theme.Ayu
    | "base16ocean" => .ok Theme.Base16Ocean
    | "coldark" => .ok Theme.Coldark
    | "gruvbox" => .ok Theme.Gruvbox
    | "monokai" => .ok Theme.Monokai
    | "onehalf" => .ok Theme.Onehalf
    | "solarized" => .ok Theme.Solarized
    | _ => .error (Error.UnknownTheme var)

/-- `env::cache_size` (`src/env.rs:64-71`): absent input yields the
non-zero default 128, present input parses as `NonZeroUsize`; either
way a parse failure is wrapped in `Error::CacheSize`. -/
def cache_size (v : EnvVar) : Except Error Nat :=
  (match v with
   | .error _ => (.ok 128 : Except IntErrorKind Nat)
   | .ok s => parseNonZeroUsize s).mapError Error.CacheSize

/-- `env::database_method` (`src/env.rs:73-79`): a present path selects
file-backed storage at that path, absence selects in-memory storage, and
a non-Unicode value is the distinct `Error::DatabasePath`. -/
def database_method (v : EnvVar) : Except Error Open :=
  match v with
  | .ok path => .ok (Open.Path path)
  | .error .notUnicode => .error Error.DatabasePath
  | .error .notPresent => .ok Open.Memory

/-- `env::max_body_size` (`src/env.rs:97-101`): absent input yields
`1024 * 1024` bytes, present input parses as `usize`; parse failure is
wrapped in `Error::MaxBodySize`. -/
def max_body_size (v : EnvVar) : Except Error Nat :=
  (match v with
   | .error _ => (.ok (1024 * 1024) : Except IntErrorKind Nat)
   | .ok s => parseU64 s).mapError Error.MaxBodySize

/-- `env::password_hash_salt` (`src/env.rs:129-131`): defaults to
`"somesalt"` whenever the read fails. -/
def password_hash_salt (v : EnvVar) : String :=
  match v with
  | .error _ => "somesalt"
  | .ok s => s

/-- `env::http_timeout` (`src/env.rs:133-140`): absent input yields the
5-second default, present input parses as `u64` seconds turned into
`Duration::new(v, 0)`; parse failure is wrapped in `Error::HttpTimeout`. -/
def http_timeout (v : EnvVar) : Except Error Duration :=
  (match v with
   | .error _ => (.ok DEFAULT_HTTP_TIMEOUT : Except IntErrorKind Duration)
   | .ok s => (parseU64 s).map (fun n => Duration.mk n 0)).mapError Error.HttpTimeout

/-- A parsed absolute URL: scheme and the remainder after `"://"`. -/
structure Url where
  scheme : String
  rest : String
deriving DecidableEq, Repr

/-- Splits a character list at the first occurrence of `"://"`,
returning the scheme characters and the remainder. -/
def splitSchemeAux : List Char → List Char → Option (List Char × List Char)
  | ':' :: '/' :: '/' :: rest, acc => some (acc.reverse, rest)
  | c :: cs, acc => splitSchemeAux cs (c :: acc)
  | [], _ => none

/-- Modelled from the spec: the external `url` crate's `Url::parse`,
restricted to what the spec requires of it — the standard absolute-URL
grammar, "scheme + authority at minimum" (§3).  A string without a
scheme separator is the crate's relative-URL error; an alphabetic,
non-empty scheme and a non-empty authority are required.  Normalization
performed by the real crate is not modelled; no claim depends on it. -/
def Url.parse (s : String) : Except String Url :=
  match splitSchemeAux s.data [] with
  | none => .error "relative URL without a base"
  | some (scheme, rest) =>
    if scheme.isEmpty || ¬ scheme.all Char.isAlpha then
      .error "relative URL without a base"
    else if rest.isEmpty then
      .error "empty host"
    else
      .ok ⟨⟨scheme⟩, ⟨rest⟩⟩

/-- `env::base_url` (`src/env.rs:104-127`): a present Unicode value must
parse as a URL (failure is `Error::BaseUrl` with the parse diagnostic); a
non-Unicode value is `Error::BaseUrl("WASTEBIN_BASE_URL is not unicode")`;
an absent value falls back to the hostname lookup (modelled as the
explicit argument `host`, `Except` of the lookup), whose failure is
`Error::BaseUrl("failed to get hostname: ...")` and whose success is
parsed as `https://{hostname}`. -/
def base_url (v : EnvVar) (host : Except String String) : Except Error Url :=
  match v with
  | .ok var =>
    match Url.parse var with
    | .ok u => .ok u
    | .error e => .error (Error.BaseUrl e)
  | .error .notUnicode => .error (Error.BaseUrl (VAR_BASE_URL ++ " is not unicode"))
  | .error .notPresent =>
    match host with
    | .error err => .error (Error.BaseUrl ("failed to get hostname: " ++ err))
    | .ok hostname =>
      match Url.parse ("https://" ++ hostname) with
      | .ok u => .ok u
      | .error e => .error (Error.BaseUrl e)

/-- An IPv4 socket address `a.b.c.d:port`. -/
structure SocketAddrV4 where
  a : Nat
  b : Nat
  c : Nat
  d : Nat
  port : Nat
deriving DecidableEq, Repr

/-- Splits a character list on a delimiter character, keeping order and
empty segments (the behaviour of Rust's `split`). -/
def splitOnChar (sep : Char) : List Char → List Char → List (List Char)
  | [], acc => [acc.reverse]
  | c :: cs, acc =>
    if c = sep then acc.reverse :: splitOnChar sep cs []
    else splitOnChar sep cs (c :: acc)

/-- One IPv4 octet: decimal digits, value at most 255, no redundant
leading zero (std rejects `"01"`). -/
def parseOctet (cs : List Char) : Option Nat :=
  match cs with
  | [] => none
  | ['0'] => some 0
  | c :: _ =>
    if c = '0' then none
    else if cs.all Char.isDigit then
      let n := cs.foldl (fun acc c => acc * 10 + (c.toNat - 48)) 0
      if n ≤ 255 then some n else none
    else none

/-- Modelled from the spec: std's `host:port` socket-address grammar
(§4.1), in its IPv4 form — four dot-separated octets, a colon, and a
decimal port below 65536.  The IPv6 bracket form is not modelled; no
claim exercises it. -/
def parseSocketAddr (s : String) : Option SocketAddrV4 :=
  match splitOnChar ':' s.data [] with
  | [hostPart, portPart] =>
    (match splitOnChar '.' hostPart [] with
     | [oa, ob, oc, od] =>
       match parseOctet oa, parseOctet ob, parseOctet oc, parseOctet od with
       | some a, some b, some c, some d =>
         if portPart ≠ [] ∧ portPart.all Char.isDigit then
           let p := portPart.foldl (fun acc c => acc * 10 + (c.toNat - 48)) 0
           if p < 65536 then some ⟨a, b, c, d, p⟩ else none
         else none
       | _, _, _, _ => none
     | _ => none)
  | _ => none

/-- `env::addr` (`src/env.rs:88-95`): the input string — or the default
`"0.0.0.0:8088"` whenever the read fails — is parsed as a socket
address, any parse failure collapsing to `Error::AddressPort`. -/
def addr (v : EnvVar) : Except Error SocketAddrV4 :=
  let s := match v with
           | .ok s => s
           | .error _ => "0.0.0.0:8088"
  match parseSocketAddr s with
  | some a => .ok a
  | none => .error Error.AddressPort

/-- UTF-8 encoding of one character (the bytes `str::as_bytes` holds
for it). -/
def utf8Bytes (c : Char) : List Nat :=
  let n := c.toNat
  if n < 128 then [n]
  else if n < 2048 then [192 + n / 64, 128 + n % 64]
  else if n < 65536 then [224 + n / 4096, 128 + (n / 64) % 64, 128 + n % 64]
  else [240 + n / 262144, 128 + (n / 4096) % 64, 128 + (n / 64) % 64, 128 + n % 64]

/-- The UTF-8 bytes of a string, as `str::as_bytes` exposes them. -/
def strBytes (s : String) : List Nat :=
  s.data.foldr (fun c acc => utf8Bytes c ++ acc) []

/-- Key material: a list of bytes. -/
abbrev Key := List Nat

/-- The minimum master-key byte length of the signing primitive. -/
def KEY_MIN_LEN : Nat := 64

/-- Modelled from the spec: cookie `Key::generate` (not under `src/`)
draws a full-length 64-byte master key from a cryptographically secure
source, modelled as the explicit `entropy` argument. -/
def Key.generate (entropy : Nat → Nat) : Key :=
  (List.range KEY_MIN_LEN).map entropy

/-- Modelled from the spec: cookie `Key::try_from` (not under `src/`)
accepts supplied master-key material only when it meets the signing
primitive's minimum byte length; shorter material is a descriptive
error, and accepted material is used as-is — never padded, stretched or
truncated. -/
def Key.tryFrom (bytes : List Nat) : Except String Key :=
  if bytes.length < KEY_MIN_LEN then
    .error ("key material is too short: expected at least 64 bytes, found "
      ++ toString bytes.length)
  else .ok bytes

/-- `env::signing_key` (`src/env.rs:81-86`): whenever the read fails a
fresh key is generated; a present Unicode value's UTF-8 bytes go through
`Key::try_from`, its failure wrapped in `Error::SigningKey`. -/
def signing_key (v : EnvVar) (entropy : Nat → Nat) : Except Error Key :=
  match v with
  | .error _ => .ok (Key.generate entropy)
  | .ok s => (Key.tryFrom (strBytes s)).mapError Error.SigningKey

/-- An ordered expiration set: durations in seconds in presentation
order, with the index of the pre-selected default. -/
structure ExpirationSet where
  entries : List Nat
  defaultIndex : Nat
deriving DecidableEq, Repr

/-- Detects and strips the trailing `"=d"` default marker of one token. -/
def stripMarker (t : List Char) : List Char × Bool :=
  match t.reverse with
  | 'd' :: '=' :: rest => (rest.reverse, true)
  | _ => (t, false)

/-- Modelled from the spec: the token loop of the `crate::expiration`
grammar (§4.6, the module is not under `src/`): per token, strip the
marker if present, a second marked token being the fatal
multiple-defaults error; parse the remaining text as a non-negative
integer, failure naming the offending token. -/
def parseExpirationTokens :
    List (List Char) → Nat → List Nat → Option Nat → Except ExpirationError ExpirationSet
  | [], _, acc, marked => .ok ⟨acc.reverse, marked.getD 0⟩
  | t :: rest, i, acc, marked =>
    let (core, isMarked) := stripMarker t
    if isMarked && marked.isSome then .error ExpirationError.multipleDefaults
    else
      match parseU64Chars core with
      | .error _ => .error (ExpirationError.parseToken ⟨t⟩)
      | .ok n =>
        parseExpirationTokens rest (i + 1) (n :: acc) (if isMarked then some i else marked)

/-- Modelled from the spec: `crate::expiration`'s `FromStr` (§4.6):
split on commas preserving order and run the token loop; when no token
carries the marker the designated fallback default index is the first
token (the deterministic policy choice §9 requires). -/
def parseExpirationSet (s : String) : Except ExpirationError ExpirationSet :=
  parseExpirationTokens (splitOnChar ',' s.data []) 0 [] none

/-- The built-in default expiration string of `env::expiration_set`
(`src/env.rs:145`). -/
def DEFAULT_EXPIRATION_STRING : String := "0,600,3600=d,86400,604800,2419200,29030400"

/-- `env::expiration_set` (`src/env.rs:143-150`): whenever the read
fails the built-in default string is parsed under the same grammar as a
present value; grammar errors are wrapped in
`Error::ParsePasteExpiration`. -/
def expiration_set (v : EnvVar) : Except Error ExpirationSet :=
  match v with
  | .error _ => (parseExpirationSet DEFAULT_EXPIRATION_STRING).mapError Error.ParsePasteExpiration
  | .ok s => (parseExpirationSet s).mapError Error.ParsePasteExpiration

/-- The full set of external inputs, one per resolver. -/
structure Env where
  title : EnvVar
  theme : EnvVar
  cacheSize : EnvVar
  databasePath : EnvVar
  signingKey : EnvVar
  addressPort : EnvVar
  maxBodySize : EnvVar
  baseUrl : EnvVar
  passwordSalt : EnvVar
  httpTimeout : EnvVar
  pasteExpirations : EnvVar

/-- The resolved configuration snapshot: one typed result per resolver. -/
structure Config where
  title : String
  theme : Except Error Theme
  cacheSize : Except Error Nat
  databaseMethod : Except Error Open
  signingKey : Except Error Key
  addr : Except Error SocketAddrV4
  maxBodySize : Except Error Nat
  baseUrl : Except Error Url
  passwordHashSalt : String
  httpTimeout : Except Error Duration
  expirationSet : Except Error ExpirationSet

/-- Resolving the full configuration set: each resolver applied to its
own input, with the two external effects (hostname lookup, key-material
generation) passed explicitly. -/
def resolveConfig (env : Env) (host : Except String String) (entropy : Nat → Nat) : Config where
  title := title env.title
  theme := theme env.theme
  cacheSize := cache_size env.cacheSize
  databaseMethod := database_method env.databasePath
  signingKey := signing_key env.signingKey entropy
  addr := addr env.addressPort
  maxBodySize := max_body_size env.maxBodySize
  baseUrl := base_url env.baseUrl host
  passwordHashSalt := password_hash_salt env.passwordSalt
  httpTimeout := http_timeout env.httpTimeout
  expirationSet := expiration_set env.pasteExpirations

/-- Everything of a configuration except the signing key, for stating
determinism modulo the randomized key. -/
def Config.exceptKey (c : Config) :
    String × Except Error Theme × Except Error Nat × Except Error Open ×
    Except Error SocketAddrV4 × Except Error Nat × Except Error Url ×
    String × Except Error Duration × Except Error ExpirationSet :=
  (c.title, c.theme, c.cacheSize, c.databaseMethod, c.addr, c.maxBodySize,
   c.baseUrl, c.passwordHashSalt, c.httpTimeout, c.expirationSet)

/-- An environment with every variable unset. -/
def emptyEnv : Env :=
  ⟨.error .notPresent, .error .notPresent, .error .notPresent, .error .notPresent,
   .error .notPresent, .error .notPresent, .error .notPresent, .error .notPresent,
   .error .notPresent, .error .notPresent, .error .notPresent⟩

/-- C2: when the external input is entirely absent, `expiration_set`
parses the fixed built-in default string under the exact same grammar
used for a present input, and that parse succeeds — yielding the seven
documented durations with index 2 (the `3600=d` token) marked default —
so the absent path can never return an error. -/
theorem expiration_set_default :
    expiration_set (.error .notPresent) =
      (parseExpirationSet DEFAULT_EXPIRATION_STRING).mapError Error.ParsePasteExpiration
    ∧ (∀ s, expiration_set (.ok s) = (parseExpirationSet s).mapError Error.ParsePasteExpiration)
    ∧ expiration_set (.error .notPresent) =
        .ok ⟨[0, 600, 3600, 86400, 604800, 2419200, 29030400], 2⟩ := by
  refine ⟨rfl, fun s => rfl, ?_⟩
  decide

/-- C2 witness: the same grammar also runs on a concrete present input. -/
theorem expiration_set_default_witness :
    expiration_set (.ok "0,600,3600=d,86400") = .ok ⟨[0, 600, 3600, 86400], 2⟩ :=
  (expiration_set_default.2.1 "0,600,3600=d,86400").trans (by decide)

/-- C3: absent input yields the default theme `Ayu`; each of the seven
fixed names maps case-sensitively to its variant; any other present
string — for example a known name in the wrong case — is a fatal
`UnknownTheme` error carrying the offending string verbatim. -/
theorem theme_resolution :
    theme (.error .notPresent) = .ok Theme.Ayu
    ∧ theme (.ok "ayu") = .ok Theme.Ayu
    ∧ theme (.ok "base16ocean") = .ok Theme.Base16Ocean
    ∧ theme (.ok "coldark") = .ok Theme.Coldark
    ∧ theme (.ok "gruvbox") = .ok Theme.Gruvbox
    ∧ theme (.ok "monokai") = .ok Theme.Monokai
    ∧ theme (.ok "onehalf") = .ok Theme.Onehalf
    ∧ theme (.ok "solarized") = .ok Theme.Solarized
    ∧ (∀ s : String,
        s ∉ ["ayu", "base16ocean", "coldark", "gruvbox", "monokai", "onehalf", "solarized"] →
        theme (.ok s) = .error (Error.UnknownTheme s))
    ∧ theme (.ok "Ayu") = .error (Error.UnknownTheme "Ayu") := by
  refine ⟨rfl, rfl, rfl, rfl, rfl, rfl, rfl, rfl, ?_, rfl⟩
  intro s hs
  simp only [List.mem_cons, List.not_mem_nil, or_false, not_or] at hs
  obtain ⟨h1, h2, h3, h4, h5, h6, h7⟩ := hs
  unfold theme
  split <;> simp_all

/-- C3 witness: a case-variant of a known name is rejected verbatim. -/
theorem theme_resolution_witness :
    theme (.ok "AYU") = .error (Error.UnknownTheme "AYU") :=
  theme_resolution.2.2.2.2.2.2.2.2.1 "AYU" (by decide)

/-- C4: every scalar resolver returns exactly its documented default on
absent input — cache size 128, max body size 1048576 bytes, bind address
0.0.0.0:8088, HTTP timeout 5 seconds, title `"wastebin"`, salt
`"somesalt"` — and none of these absent paths is an error. -/
theorem scalar_defaults :
    cache_size (.error .notPresent) = .ok 128
    ∧ max_body_size (.error .notPresent) = .ok 1048576
    ∧ addr (.error .notPresent) = .ok ⟨0, 0, 0, 0, 8088⟩
    ∧ http_timeout (.error .notPresent) = .ok ⟨5, 0⟩
    ∧ title (.error .notPresent) = "wastebin"
    ∧ password_hash_salt (.error .notPresent) = "somesalt" := by
  refine ⟨rfl, rfl, ?_, rfl, rfl, rfl⟩
  decide

/-- C7: absence selects in-memory storage, a present path selects
file-backed storage at exactly that path, and a non-Unicode value is the
distinct `DatabasePath` error — it fails rather than falling back to the
in-memory branch. -/
theorem database_method_resolution :
    database_method (.error .notPresent) = .ok Open.Memory
    ∧ (∀ p, database_method (.ok p) = .ok (Open.Path p))
    ∧ database_method (.error .notUnicode) = .error Error.DatabasePath
    ∧ database_method (.error .notUnicode) ≠ database_method (.error .notPresent) := by
  refine ⟨rfl, fun p => rfl, rfl, ?_⟩
  decide

/-- C7 witness: a concrete present path. -/
theorem database_method_resolution_witness :
    database_method (.ok "state.db") = .ok (Open.Path "state.db") :=
  database_method_resolution.2.1 "state.db"

/-- C10: for every resolver except the storage-location and base-URL
ones, a present non-Unicode value is treated exactly as an absent one:
the default/generated path is taken and no encoding error is ever
reported — in particular a non-Unicode signing-key value silently yields
a freshly generated key. -/
theorem non_unicode_as_absent :
    title (.error .notUnicode) = title (.error .notPresent)
    ∧ theme (.error .notUnicode) = theme (.error .notPresent)
    ∧ cache_size (.error .notUnicode) = cache_size (.error .notPresent)
    ∧ max_body_size (.error .notUnicode) = max_body_size (.error .notPresent)
    ∧ addr (.error .notUnicode) = addr (.error .notPresent)
    ∧ http_timeout (.error .notUnicode) = http_timeout (.error .notPresent)
    ∧ password_hash_salt (.error .notUnicode) = password_hash_salt (.error .notPresent)
    ∧ expiration_set (.error .notUnicode) = expiration_set (.error .notPresent)
    ∧ theme (.error .notUnicode) = .ok Theme.Ayu
    ∧ cache_size (.error .notUnicode) = .ok 128
    ∧ (∀ g, signing_key (.error .notUnicode) g = signing_key (.error .notPresent) g
        ∧ signing_key (.error .notUnicode) g = .ok (Key.generate g)) :=
  ⟨rfl, rfl, rfl, rfl, rfl, rfl, rfl, rfl, rfl, rfl, fun _ => ⟨rfl, rfl⟩⟩

/-- C10 witness: a concrete generator on the signing-key conjunct. -/
theorem non_unicode_as_absent_witness :
    signing_key (.error .notUnicode) (fun _ => 3) = signing_key (.error .notPresent) (fun _ => 3)
    ∧ signing_key (.error .notUnicode) (fun _ => 3) = .ok (Key.generate (fun _ => 3)) :=
  non_unicode_as_absent.2.2.2.2.2.2.2.2.2.2 (fun _ => 3)

/-- C1: a present value that parses under the absolute-URL grammar is
returned exactly as parsed; an absent value triggers the hostname lookup
and returns the URL synthesized as `https://` followed by the resolved
hostname (the mocked hostname `host1` yields `https://host1`); failure
of the lookup itself is a fatal `BaseUrl` error — never a silently
chosen static default. -/
theorem base_url_resolution :
    (∀ (s : String) (u : Url) (host : Except String String),
        Url.parse s = .ok u → base_url (.ok s) host = .ok u)
    ∧ (∀ (hostname : String) (u : Url),
        Url.parse ("https://" ++ hostname) = .ok u →
        base_url (.error .notPresent) (.ok hostname) = .ok u)
    ∧ base_url (.error .notPresent) (.ok "host1") = .ok ⟨"https", "host1"⟩
    ∧ (∀ e : String,
        base_url (.error .notPresent) (.error e) =
          .error (Error.BaseUrl ("failed to get hostname: " ++ e))) := by
  refine ⟨?_, ?_, ?_, fun e => rfl⟩
  · intro s u host h
    simp [base_url, h]
  · intro hostname u h
    simp [base_url, h]
  · decide

/-- C1 witness: the three branches at concrete inputs. -/
theorem base_url_resolution_witness :
    base_url (.ok "https://example.com") (.error "unused") = .ok ⟨"https", "example.com"⟩
    ∧ base_url (.error .notPresent) (.ok "host1") = .ok ⟨"https", "host1"⟩
    ∧ base_url (.error .notPresent) (.error "no hostname") =
        .error (Error.BaseUrl "failed to get hostname: no hostname") :=
  ⟨base_url_resolution.1 "https://example.com" ⟨"https", "example.com"⟩ (.error "unused") (by decide),
   base_url_resolution.2.2.1,
   base_url_resolution.2.2.2 "no hostname"⟩

/-- C5: for the numeric resolvers, a well-formed present input yields
exactly the parsed value, and a present input the unsigned-integer
grammar rejects — negative, non-numeric, or overflowing the 64-bit
target width — yields that resolver's own documented error constructor
carrying the underlying parse diagnostic, never another resolver's. -/
theorem numeric_resolvers (s : String) :
    (∀ n, parseU64 s = .ok n →
        max_body_size (.ok s) = .ok n
        ∧ http_timeout (.ok s) = .ok ⟨n, 0⟩
        ∧ (n ≠ 0 → cache_size (.ok s) = .ok n))
    ∧ (∀ e, parseU64 s = .error e →
        max_body_size (.ok s) = .error (Error.MaxBodySize e)
        ∧ http_timeout (.ok s) = .error (Error.HttpTimeout e)
        ∧ cache_size (.ok s) = .error (Error.CacheSize e)) := by
  constructor
  · intro n h
    refine ⟨?_, ?_, fun hn => ?_⟩
    · simp [max_body_size, h, Except.mapError]
    · simp [http_timeout, h, Except.mapError, Except.map]
    · simp [cache_size, parseNonZeroUsize, h, hn, Except.mapError]
  · intro e h
    refine ⟨?_, ?_, ?_⟩
    · simp [max_body_size, h, Except.mapError]
    · simp [http_timeout, h, Except.mapError, Except.map]
    · simp [cache_size, parseNonZeroUsize, h, Except.mapError]

/-- C5 witness: a well-formed input, a negative input and an
overflowing input at concrete values. -/
theorem numeric_resolvers_witness :
    (max_body_size (.ok "123") = .ok 123
      ∧ http_timeout (.ok "123") = .ok ⟨123, 0⟩
      ∧ cache_size (.ok "123") = .ok 123)
    ∧ (max_body_size (.ok "-5") = .error (Error.MaxBodySize .invalidDigit)
      ∧ http_timeout (.ok "-5") = .error (Error.HttpTimeout .invalidDigit)
      ∧ cache_size (.ok "-5") = .error (Error.CacheSize .invalidDigit))
    ∧ max_body_size (.ok "99999999999999999999") = .error (Error.MaxBodySize .posOverflow) := by
  refine ⟨?_, ?_, ?_⟩
  · obtain ⟨h1, h2, h3⟩ := (numeric_resolvers "123").1 123 (by decide)
    exact ⟨h1, h2, h3 (by decide)⟩
  · exact (numeric_resolvers "-5").2 .invalidDigit (by decide)
  · exact ((numeric_resolvers "99999999999999999999").2 .posOverflow (by decide)).1

/-- C6: supplied key material shorter than the signing primitive's
64-byte minimum is a fatal descriptive `SigningKey` error; material of
sufficient length is used exactly as supplied — never padded, stretched
or truncated; absent input yields a freshly generated key of the
required length, and two resolutions whose generators differ anywhere in
the first 64 draws yield different key material. -/
theorem signing_key_resolution :
    (∀ (s : String) (g : Nat → Nat), (strBytes s).length < KEY_MIN_LEN →
        signing_key (.ok s) g =
          .error (Error.SigningKey
            ("key material is too short: expected at least 64 bytes, found "
              ++ toString (strBytes s).length)))
    ∧ (∀ (s : String) (g : Nat → Nat), KEY_MIN_LEN ≤ (strBytes s).length →
        signing_key (.ok s) g = .ok (strBytes s))
    ∧ (∀ g, signing_key (.error .notPresent) g = .ok (Key.generate g))
    ∧ (∀ g, (Key.generate g).length = KEY_MIN_LEN)
    ∧ (∀ g1 g2 : Nat → Nat, g1 0 ≠ g2 0 → Key.generate g1 ≠ Key.generate g2) := by
  refine ⟨?_, ?_, fun g => rfl, fun g => by simp [Key.generate], ?_⟩
  · intro s g h
    simp [signing_key, Key.tryFrom, h, Except.mapError]
  · intro s g h
    simp [signing_key, Key.tryFrom, Nat.not_lt_of_le h, Except.mapError]
  · intro g1 g2 hne heq
    apply hne
    have h0 : (Key.generate g1)[0]? = (Key.generate g2)[0]? := by rw [heq]
    simpa [Key.generate, List.getElem?_map, List.getElem?_range, KEY_MIN_LEN] using h0

/-- C6 witness: short material rejected, 64-byte material accepted
as-is, and two distinct generators producing distinct keys. -/
theorem signing_key_resolution_witness :
    signing_key (.ok "aaa") (fun _ => 0) =
      .error (Error.SigningKey ("key material is too short: expected at least 64 bytes, found "
        ++ toString (strBytes "aaa").length))
    ∧ signing_key
        (.ok "aaaaaaaaaaaaaaaaaaaaaaaaaaaaaaaaaaaaaaaaaaaaaaaaaaaaaaaaaaaaaaaa")
        (fun _ => 0) =
        .ok (strBytes "aaaaaaaaaaaaaaaaaaaaaaaaaaaaaaaaaaaaaaaaaaaaaaaaaaaaaaaaaaaaaaaa")
    ∧ signing_key (.error .notPresent) (fun _ => 0) = .ok (Key.generate (fun _ => 0))
    ∧ (Key.generate (fun _ => 0)).length = KEY_MIN_LEN
    ∧ Key.generate (fun i => i) ≠ Key.generate (fun _ => 7) :=
  ⟨signing_key_resolution.1 "aaa" (fun _ => 0) (by decide),
   signing_key_resolution.2.1 "aaaaaaaaaaaaaaaaaaaaaaaaaaaaaaaaaaaaaaaaaaaaaaaaaaaaaaaaaaaaaaaa"
     (fun _ => 0) (by decide),
   signing_key_resolution.2.2.1 (fun _ => 0),
   signing_key_resolution.2.2.2.1 (fun _ => 0),
   signing_key_resolution.2.2.2.2 (fun i => i) (fun _ => 7) (by decide)⟩

/-- The parse errors of the modelled URL grammar come from a fixed
two-element set, neither member being the non-Unicode diagnostic that
`base_url` emits. -/
theorem url_parse_error_msgs (s e : String) (h : Url.parse s = .error e) :
    e = "relative URL without a base" ∨ e = "empty host" := by
  unfold Url.parse at h
  split at h
  · injection h with h
    exact Or.inl h.symm
  · split at h
    · injection h with h
      exact Or.inl h.symm
    · split at h
      · injection h with h
        exact Or.inr h.symm
      · exact Except.noConfusion h

/-- C8: the three failure-relevant shapes of the base-URL input are
pairwise distinguishable — a non-Unicode value yields the dedicated
non-text diagnostic, a present malformed value yields the parse error's
own distinct diagnostic, and an absent value is not an error at all: it
takes the hostname fallback. -/
theorem base_url_error_distinction (s e : String) (host : Except String String)
    (hparse : Url.parse s = .error e) :
    base_url (.error .notUnicode) host =
      .error (Error.BaseUrl "WASTEBIN_BASE_URL is not unicode")
    ∧ base_url (.ok s) host = .error (Error.BaseUrl e)
    ∧ e ≠ "WASTEBIN_BASE_URL is not unicode"
    ∧ (∀ hostname u, Url.parse ("https://" ++ hostname) = .ok u →
        base_url (.error .notPresent) (.ok hostname) = .ok u) := by
  refine ⟨rfl, by simp [base_url, hparse], ?_, ?_⟩
  · rcases url_parse_error_msgs s e hparse with h | h <;> subst h <;> decide
  · intro hostname u h
    simp [base_url, h]

/-- C8 witness: the three shapes at concrete inputs. -/
theorem base_url_error_distinction_witness :
    base_url (.error .notUnicode) (.ok "host1") =
      .error (Error.BaseUrl "WASTEBIN_BASE_URL is not unicode")
    ∧ base_url (.ok "not a url") (.ok "host1") =
        .error (Error.BaseUrl "relative URL without a base")
    ∧ ("relative URL without a base" : String) ≠ "WASTEBIN_BASE_URL is not unicode"
    ∧ base_url (.error .notPresent) (.ok "host1") = .ok ⟨"https", "host1"⟩ := by
  obtain ⟨h1, h2, h3, h4⟩ :=
    base_url_error_distinction "not a url" "relative URL without a base" (.ok "host1") (by decide)
  exact ⟨h1, h2, h3, h4 "host1" ⟨"https", "host1"⟩ (by decide)⟩

/-- C9: resolving the full configuration set twice from the same
external inputs (environment and hostname) yields identical typed values
for every setting; the signing key is the sole possible exception, and
only on its generated — input-absent — path. -/
theorem resolve_deterministic (env : Env) (host : Except String String) (e1 e2 : Nat → Nat) :
    (resolveConfig env host e1).exceptKey = (resolveConfig env host e2).exceptKey
    ∧ ((resolveConfig env host e1).signingKey ≠ (resolveConfig env host e2).signingKey →
        ∃ ve, env.signingKey = .error ve) := by
  refine ⟨rfl, fun hne => ?_⟩
  cases hv : env.signingKey with
  | error ve => exact ⟨ve, rfl⟩
  | ok s =>
    exfalso
    apply hne
    show signing_key env.signingKey e1 = signing_key env.signingKey e2
    rw [hv]
    rfl

/-- C9 witness: a concrete empty environment with two different
generators — every non-key setting coincides, and the key input is
indeed on the absent path. -/
theorem resolve_deterministic_witness :
    (resolveConfig emptyEnv (.ok "host1") (fun _ => 0)).exceptKey
      = (resolveConfig emptyEnv (.ok "host1") (fun _ => 1)).exceptKey
    ∧ (∃ ve, emptyEnv.signingKey = .error ve) :=
  ⟨(resolve_deterministic emptyEnv (.ok "host1") (fun _ => 0) (fun _ => 1)).1,
   (resolve_deterministic emptyEnv (.ok "host1") (fun _ => 0) (fun _ => 1)).2 (by decide)⟩

end Wastebin
